import Mathlib

/-!
Shallow embedding of the ui-screenshot-to-prompt analysis pipeline.

The embedded code lives in two places of the repository:
  * `src/unnamed/part_000` (referred to below as `main`): the pipeline
    orchestrator `processImage`, the vision-gateway wrapper `callVisionAPI`,
    the stage functions `analyzeMainDesignChoices`, `describeActivity`,
    `analyzeDetection`, `callSuperPrompt`, and the LLM detector
    (`createDetector(...).getComponents`).
  * `src/src/core/config.ts`: the process-wide configuration state, the
    prompt constants, `setPromptChoice`, and `buildSuperPrompt`.

Modelling decisions, all of them observation-preserving with respect to the
source:
  * The Model Gateway (the `fetch` call inside `callVisionAPI`, together with
    the API-key lookup and the extraction of `data.choices[0].message.content`)
    is an oracle `Gateway : VisionArgs -> Except String String`.  An `error`
    models any thrown exception (missing key, non-2xx response, network
    failure); an `ok` carries the raw provider text, which `callVisionAPI`
    trims, exactly as in the source.  The single screenshot of a run is
    attached to every request and carries no information that the control flow
    inspects, so it is not part of `VisionArgs`.
  * `JSON.parse` is an oracle `parse : String -> Option Json`; `none` models a
    thrown `SyntaxError`.
  * JavaScript runtime values coming out of `JSON.parse` are modelled by the
    inductive `Json`; field access `o.k` on a value that may be `null` is
    `Json.getFieldOrThrow o k` (a thrown `TypeError` on `null`, `none` for
    `undefined`), while `Json.getField` covers accesses whose receiver is
    known non-null; `a || b` on such values is `jsOr`, and truthiness is
    `jsTruthy`.  JS numbers are modelled as rationals, the exact carriers
    of the decimal numerals `JSON.parse` accepts.
  * Every stage runs in the monad `M`, which threads the ordered list of
    gateway calls made so far (so that "stage X is never invoked" is a
    provable statement) and propagates thrown exceptions; `M.tryCatch` models
    `try/catch`.
  * Logger calls are no-ops and are dropped.
-/

/-- JavaScript values produced by `JSON.parse`, plus `null`; `undefined` is
represented by `Option.none` at use sites. JS numbers are modelled as
rationals (no claim in scope depends on floating-point behaviour). -/
inductive Json : Type where
  | null : Json
  | bool (b : Bool) : Json
  | num (q : ℚ) : Json
  | str (s : String) : Json
  | arr (elems : List Json) : Json
  | obj (fields : List (String × Json)) : Json

/-- Property access `o.key` on a receiver the embedded code has already
established to be non-null: a lookup on objects, `undefined` (`none`) on the
other values.  An access whose receiver may be `null` — which throws a
`TypeError` in JS — goes through `Json.getFieldOrThrow` instead, so the
`null` case of the wildcard arm below is never reached by the embedding. -/
def Json.getField : Json → String → Option Json
  | Json.obj fields, key => fields.lookup key
  | _, _ => none

/-- Property access `o.key` on a value that may be `null`: JS throws a
`TypeError` on `null` (and the embedded code relies on its `try/catch` to
recover); every other receiver behaves as `Json.getField`. -/
def Json.getFieldOrThrow : Json → String → Except String (Option Json)
  | Json.null, key =>
    Except.error ("TypeError: Cannot read properties of null (reading \x27" ++ key ++ "\x27)")
  | j, key => Except.ok (j.getField key)

/-- Whether a JS value is `null`. -/
def Json.isNull : Json → Bool
  | Json.null => true
  | _ => false

/-- JS truthiness of a runtime value. -/
def jsTruthy : Json → Bool
  | Json.null => false
  | Json.bool b => b
  | Json.num q => q != 0
  | Json.str s => s != ""
  | Json.arr _ => true
  | Json.obj _ => true

/-- The JS expression `v || fallback` where `v` is a possibly-`undefined`
property access. -/
def jsOr (value : Option Json) (fallback : Json) : Json :=
  match value with
  | some v => if jsTruthy v then v else fallback
  | none => fallback

/-- JS number-to-string for the exact values JSON numerals denote: an
integral value prints with no decimal point, and a value with a finite
decimal expansion prints in decimal notation — the forms JS itself produces
for the JSON-parseable numbers reachable in this pipeline (double-precision
shortest-round-trip artifacts aside).  A rational with no finite decimal
expansion cannot come out of `JSON.parse` and falls back to a fraction
rendering. -/
def jsNumToString (q : ℚ) : String :=
  if q.den = 1 then toString q.num
  else
    match (List.range 400).find? (fun k => (q * (10 : ℚ) ^ k).den = 1) with
    | some k =>
      let n : Int := (q * (10 : ℚ) ^ k).num
      let s := toString n.natAbs
      let s := if s.length ≤ k then String.mk (List.replicate (k + 1 - s.length) '0') ++ s else s
      (if n < 0 then "-" else "") ++ s.take (s.length - k) ++ "." ++ s.drop (s.length - k)
    | none => toString q.num ++ "/" ++ toString q.den

/-- JS string conversion as performed by template-literal interpolation
`[Location: (location)]`.  Strings pass through unchanged; the other cases
follow `String(v)`; an array joins its elements with commas, rendering a
`null` element as the empty string, exactly as `Array.prototype.join`
does. -/
def jsToString : Json → String
  | Json.null => "null"
  | Json.bool b => if b then "true" else "false"
  | Json.num q => jsNumToString q
  | Json.str s => s
  | Json.obj _ => "[object Object]"
  | Json.arr xs =>
    String.intercalate "," (xs.attach.map (fun x => if x.val.isNull then "" else jsToString x.val))
decreasing_by
  simp_wf
  have := List.sizeOf_lt_of_mem x.2
  omega

/-- One request sent by `callVisionAPI` (main, lines 10-86): system prompt,
user prompt, temperature, whether a JSON response format is requested, and
the model name.  The screenshot payload is the run's single image on every
call and is omitted (see the header comment). -/
structure VisionArgs where
  systemPrompt : String
  userPrompt : String
  temperature : ℚ
  jsonResponse : Bool
  model : String

/-- The Model Gateway oracle: provider text for a request, or a thrown
exception. -/
def Gateway : Type := VisionArgs → Except String String

/-- The effect monad of the pipeline: a state of gateway calls made so far
(in order), with JS exception propagation. -/
def M (α : Type) : Type := List VisionArgs → Except String α × List VisionArgs

/-- Return a value, make no call. -/
def M.pure {α : Type} (a : α) : M α := fun t => (Except.ok a, t)

/-- Sequencing with exception propagation (an `await` chain). -/
def M.bind {α β : Type} (x : M α) (f : α → M β) : M β := fun t =>
  match x t with
  | (Except.ok a, t₁) => f a t₁
  | (Except.error e, t₁) => (Except.error e, t₁)

/-- A JS `throw`. -/
def M.throw {α : Type} (e : String) : M α := fun t => (Except.error e, t)

/-- A JS `try { x } catch (e) { handler e }`. -/
def M.tryCatch {α : Type} (x : M α) (handler : String → M α) : M α := fun t =>
  match x t with
  | (Except.ok a, t₁) => (Except.ok a, t₁)
  | (Except.error e, t₁) => handler e t₁

/-- `callVisionAPI` (main, lines 10-86): records the request, then either
returns the trimmed provider text or rethrows the gateway failure (its own
`catch` only logs before rethrowing). -/
def callVisionAPI (g : Gateway) (args : VisionArgs) : M String := fun t =>
  match g args with
  | Except.ok content => (Except.ok content.trim, t ++ [args])
  | Except.error e => (Except.error e, t ++ [args])

/-- `DetectionMethod` (types.ts): the only detection mode is `llm`. -/
inductive DetectionMethod : Type where
  | llm : DetectionMethod

/-- `UIDetection` (types.ts).  The TypeScript interface declares
`type/text : string`, `bbox : [number, number, number, number]`,
`confidence : number`, but the detector stores whatever JS values the parsed
model response happens to contain, so the fields are embedded as raw `Json`
values. -/
structure UIDetection where
  type : Json
  bbox : Json
  confidence : Json
  text : Json

/-- `AnalysisResponse` (types.ts): the pipeline output record. -/
structure AnalysisResponse where
  mainDesign : String
  componentAnalyses : List String
  finalAnalysis : String

/-- The module-level mutable configuration of config.ts:
`DETECTION_METHOD`, `DETECTION_TERM`, `PROMPT_CHOICE`.  `PROMPT_CHOICE` is
declared as the union type `PromptSize` in TypeScript but is embedded as the
runtime string it holds, since `setPromptChoice` validates at runtime. -/
structure ConfigState where
  DETECTION_METHOD : DetectionMethod
  DETECTION_TERM : String
  PROMPT_CHOICE : String

/-- The initial values of the three globals (config.ts, lines 8-10). -/
def initialConfig : ConfigState :=
  ⟨DetectionMethod.llm, "component", "concise"⟩

/-- `MAX_UI_COMPONENTS` (config.ts, line 15). -/
def MAX_UI_COMPONENTS : Nat := 6

/-- `setSplittingMode` (config.ts, lines 30-35): stores the method and resets
the detection term to "component". -/
def setSplittingMode (method : DetectionMethod) (s : ConfigState) : ConfigState :=
  ⟨method, "component", s.PROMPT_CHOICE⟩

/-- `getSplittingMode` (config.ts, lines 40-42). -/
def getSplittingMode (s : ConfigState) : DetectionMethod :=
  s.DETECTION_METHOD

/-- `getDetectionTerm` (config.ts, lines 47-49). -/
def getDetectionTerm (s : ConfigState) : String :=
  s.DETECTION_TERM

/-- `setPromptChoice` (config.ts, lines 54-60): rejects anything but
"concise" and "extensive" by throwing (modelled as the `error` component of
the returned pair) before the assignment, so on failure the state comes back
unchanged; on success the new choice is stored. -/
def setPromptChoice (choice : String) (s : ConfigState) : Except String Unit × ConfigState :=
  if choice ≠ "concise" ∧ choice ≠ "extensive" then
    (Except.error "Invalid prompt choice. Must be \x27concise\x27 or \x27extensive\x27", s)
  else
    (Except.ok (), ⟨s.DETECTION_METHOD, s.DETECTION_TERM, choice⟩)

/-- `getPromptChoice` (config.ts, lines 65-67). -/
def getPromptChoice (s : ConfigState) : String :=
  s.PROMPT_CHOICE

/-- `SYSTEM_PROMPT` (config.ts, line 25). -/
def SYSTEM_PROMPT : String :=
  "You are an expert UI/UX analyst creating structured design specifications."

/-- `VISION_ANALYSIS_PROMPT` (config.ts, lines 90-126).  Literal braces of
the source template are written with hexadecimal escapes. -/
def VISION_ANALYSIS_PROMPT : String :=
  "You are an expert AI system analyzing UI components for development replication.\n\nCOMPONENT ANALYSIS REQUIREMENTS:\n\x7b\n    \"type\": \"Identify component type (button/input/card/etc)\",\n    \"visual\": \x7b\n        \"colors\": [\"primary\", \"secondary\", \"text\"],\n        \"dimensions\": \"size and spacing\",\n        \"typography\": \"font styles and weights\",\n        \"borders\": \"border styles and radius\",\n        \"shadows\": \"elevation and depth\"\n    \x7d,\n    \"content\": \x7b\n        \"text\": \"content and labels\",\n        \"icons\": \"icon types if present\",\n        \"images\": \"image content if present\"\n    \x7d,\n    \"interaction\": \x7b\n        \"primary\": \"main interaction type\",\n        \"states\": [\"hover\", \"active\", \"disabled\"],\n        \"animations\": \"transitions and effects\"\n    \x7d,\n    \"location\": \x7b\n        \"position\": \"relative to parent/siblings\",\n        \"alignment\": \"layout alignment\",\n        \"spacing\": \"margins and padding\"\n    \x7d\n\x7d\n\nOUTPUT FORMAT:\n\x7b\n    \"component\": \"technical name (<5 words)\",\n    \"specs\": \x7b\n        // Fill above structure with detected values\n    \x7d,\n    \"implementation\": \"key technical considerations (<15 words)\"\n\x7d"

/-- `MAIN_DESIGN_ANALYSIS_PROMPT` (config.ts, lines 129-195). -/
def MAIN_DESIGN_ANALYSIS_PROMPT : String :=
  "You are an expert UI/UX analyst creating structured design specifications.\n\nANALYZE AND OUTPUT THE FOLLOWING JSON STRUCTURE:\n\x7b\n    \"layout\": \x7b\n        \"pattern\": \"primary layout system (grid/flex/etc)\",\n        \"structure\": \x7b\n            \"sections\": [\"header\", \"main\", \"footer\", etc],\n            \"columns\": \x7b\n                \"count\": \"number of columns\",\n                \"sizes\": \"column width distributions\"\n            \x7d,\n            \"elements\": \x7b\n                \"boxes\": \"count and arrangement\",\n                \"circles\": \"diameter and placement\"\n            \x7d\n        \x7d,\n        \"spacing\": \x7b\n            \"between_sections\": \"major gaps\",\n            \"between_elements\": \"element spacing\"\n        \x7d,\n        \"responsive_hints\": \"visible breakpoint considerations\"\n    \x7d,\n    \"design_system\": \x7b\n        \"colors\": \x7b\n            \"primary\": \"main color palette\",\n            \"secondary\": \"supporting colors\",\n            \"text\": \"text hierarchy colors\",\n            \"background\": \"surface colors\",\n            \"interactive\": \"button/link colors\"\n        \x7d,\n        \"typography\": \x7b\n            \"headings\": \"heading hierarchy\",\n            \"body\": \"body text styles\",\n            \"special\": \"distinctive text styles\"\n        \x7d,\n        \"components\": \x7b\n            \"shadows\": \"elevation levels\",\n            \"borders\": \"border styles\",\n            \"radius\": \"corner rounding\"\n        \x7d\n    \x7d,\n    \"interactions\": \x7b\n        \"buttons\": \x7b\n            \"types\": \"button variations\",\n            \"states\": \"visible states (hover/disabled)\"\n        \x7d,\n        \"inputs\": \"form element patterns\",\n        \"feedback\": \"visible status indicators\"\n    \x7d,\n    \"content\": \x7b\n        \"media\": \x7b\n            \"images\": \"image usage patterns\",\n            \"aspect_ratios\": \"common ratios\"\n        \x7d,\n        \"text\": \x7b\n            \"lengths\": \"content constraints\",\n            \"density\": \"text distribution\"\n        \x7d\n    \x7d,\n    \"visual_hierarchy\": \x7b\n        \"emphasis\": \"attention hierarchy\",\n        \"flow\": \"visual reading order\",\n        \"density\": \"content distribution\"\n    \x7d,\n    \"implementation_notes\": \"key technical considerations (<30 words)\"\n\x7d"

/-- The JS idiom `term.charAt(0).toUpperCase() + term.slice(1)` used for the
detection term in analyzeDetection, buildSuperPrompt and reactProcessImage. -/
def capitalizeFirst (s : String) : String :=
  match s.data with
  | [] => ""
  | c :: cs => String.mk (Char.toUpper c :: cs)

/-- `buildSuperPrompt` (config.ts, lines 200-335): joins the per-region
descriptions into ordinal lines "<Term> <i+1>: <desc>", substitutes a fixed
sentinel for an empty main caption, and interpolates everything into one of
two fixed templates selected by `promptSize`.  In the source `promptSize` is
an optional parameter defaulting to "concise"; the default is passed
explicitly by callers here because the embedding uses no default arguments. -/
def buildSuperPrompt (mainImageCaption : String) (regionDescriptions : List String) (activityDescription : String) (cfg : ConfigState) (promptSize : String) : String :=
  let detectionTerm := getDetectionTerm cfg
  let regionSpecs := String.intercalate "\n" (regionDescriptions.mapIdx (fun i desc => capitalizeFirst detectionTerm ++ " " ++ toString (i + 1) ++ ": " ++ desc))
  let layoutSection := if mainImageCaption = "" then "No layout analysis available" else mainImageCaption
  if promptSize = "concise" then
    "This study presents a systematic analysis framework for precise UI replication, incorporating component specifications and visual hierarchy assessment. The framework examines:\n\n    [" ++ capitalizeFirst detectionTerm ++ " Analysis]\n    " ++ regionSpecs ++ "\n\n    [Layout Analysis]\n    " ++ layoutSection ++ "\n\n    [Interactive Elements]\n    " ++ activityDescription ++ "\n\n    Technical Specifications for Implementation:\n\n    1. Layout Architecture\n    - Container dimensions and responsive breakpoints\n    - Component positioning matrix including:\n        • Primary sections (header, content, footer)\n        • Grid system specifications\n        • Spatial relationships and padding metrics\n\n    2. Visual Parameters\n    - Color schema (primary, secondary, accent)\n    - Typography specifications\n    - Elevation system (shadows, borders)\n\n    3. Component Specifications\n    - Interactive controls\n    - Static elements\n    - State representations\n\n    4. Content Parameters\n    - Text constraints and overflow behavior\n    - Media dimensions and ratios\n    - Component hierarchy\n\n    This framework enables precise replication while maintaining structural integrity and interactive functionality across various viewport dimensions.\n    "
  else
    "You are an expert UI development agent tasked with providing exact technical specifications for recreating this interface. Analyze all details with high precision:\n\n    [Components Specifications by Location]\n    " ++ regionSpecs ++ "\n\n    [Layout Structure]\n    " ++ layoutSection ++ "\n\n    [Interaction Patterns]\n    " ++ activityDescription ++ "\n\n    Note: If a component has already been explained in detail above, only its name and location will be listed below to provide geographical context.\n\n    Provide a complete technical specification for exact replication in text format:\n\n    1. Layout Structure\n    - Primary container dimensions\n    - Component positioning map:\n        • Header, main content, sidebars, footer\n        • Layout elements:\n            - Number and size of columns (e.g., 3 columns at 33% each)\n            - Number and height of rows\n            - Grid/box count and arrangement\n            - Circular elements diameter and placement\n        • Spacing and gaps:\n            - Between major sections\n            - Between grid items\n            - Inner padding\n    - Responsive behavior:\n        • Breakpoint dimensions\n        • Layout changes at each breakpoint\n        • Element reflow rules\n    \n    2. Visual Style\n    - Colors:\n        • Primary, secondary, accent colors\n        • Background colors\n        • Text colors\n        • Border colors\n    - Typography:\n        • Font sizes\n        • Text weights\n        • Text alignment\n    - Depth and Emphasis:\n        • Visible shadows\n        • Border styles\n        • Opacity levels\n    \n    3. Visible Elements\n    - Controls:\n        • Button appearances (if new, otherwise location only)\n        • Form element styling (if new, otherwise location only)\n        • Interactive element looks (if new, otherwise location only)\n    - Static Elements:\n        • Images and icons (if new, otherwise location only)\n        • Text content (if new, otherwise location only)\n        • Decorative elements (if new, otherwise location only)\n    - Visual States:\n        • Active/selected states\n        • Disabled appearances\n        • Current page indicators\n    \n    4. Content Presentation\n    - Text:\n        • Visible length limits\n        • Current overflow handling\n        • Text wrapping behavior\n    - Media:\n        • Image dimensions\n        • Aspect ratios\n        • Current placeholder states\n    \n    5. Visual Hierarchy\n    - Element stacking\n    - Content grouping\n    - Visual emphasis\n    - Spatial relationships between previously described components\n    "

/-- The request issued by `analyzeMainDesignChoices` (main, lines 122-138). -/
def mainDesignArgs (temp : ℚ) : VisionArgs :=
  ⟨MAIN_DESIGN_ANALYSIS_PROMPT, "Analyze the complete design system and structure of this interface.", temp, false, "gpt-4o"⟩

/-- `analyzeMainDesignChoices` (main, lines 122-138): one whole-image gateway
call; its `catch` swallows any failure and substitutes the fixed sentinel
"Error analyzing main design structure".  `processImage` calls it without an
argument for `temp`, whose source default is 0.1. -/
def analyzeMainDesignChoices (g : Gateway) (temp : ℚ) : M String :=
  M.tryCatch (callVisionAPI g (mainDesignArgs temp))
    (fun _ => M.pure "Error analyzing main design structure")

/-- The request issued by `describeActivity` (main, lines 143-154). -/
def describeActivityArgs : VisionArgs :=
  ⟨"Describe this webpage activity in a few sentences.", "What activity is shown in this image?", 1/10, false, "gpt-4o"⟩

/-- `describeActivity` (main, lines 143-154): one whole-image gateway call
returned directly.  Note that unlike `analyzeMainDesignChoices` this function
has no `try/catch`: a gateway failure propagates to the caller. -/
def describeActivity (g : Gateway) : M String :=
  callVisionAPI g describeActivityArgs

/-- The user prompt built by `analyzeDetection` (main, lines 163-168); the
interpolated `location` is a raw detection `text` value, converted by the
template literal. -/
def analyzeDetectionPrompt (detectionTerm : String) (index : Nat) (location : Json) : String :=
  "Analyze this UI " ++ detectionTerm ++ ":\n  - Location: " ++ jsToString location ++ "\n  - " ++ capitalizeFirst detectionTerm ++ " number: " ++ toString index ++ "\n  \n  Provide structured analysis following the JSON schema in system prompt.\n  Focus on implementation-relevant details."

/-- The request issued by `analyzeDetection` (main, line 170). -/
def analyzeDetectionArgs (detectionTerm : String) (index : Nat) (location : Json) : VisionArgs :=
  ⟨VISION_ANALYSIS_PROMPT, analyzeDetectionPrompt detectionTerm index location, 1/10, true, "gpt-4o"⟩

/-- `analyzeDetection` (main, lines 159-173): one gateway call per component,
result returned as the `[Location: <location>]` marker line, a newline, and
the gateway text.  No `try/catch`: failures propagate. -/
def analyzeDetection (g : Gateway) (cfg : ConfigState) (index : Nat) (location : Json) : M String :=
  M.bind (callVisionAPI g (analyzeDetectionArgs (getDetectionTerm cfg) index location)) (fun analysis =>
    M.pure ("[Location: " ++ jsToString location ++ "]\n" ++ analysis))

/-- `callSuperPrompt` (main, lines 178-206): builds the super prompt from the
concise `buildSuperPrompt` template (the source call site passes no
`promptSize`, so the parameter's default "concise" applies — spelled out here
because the embedding uses no default arguments), strips the first and last
template line and all blank lines, trims, adds the "Build this app: "
instruction — and then returns a mock response embedding the first 50
characters of that final prompt, instead of performing the final gateway
call (the source comments this as a placeholder).  Its `catch` only
rethrows, and nothing in the body can throw. -/
def callSuperPrompt (mainImageCaption : String) (componentCaptions : List String) (activityDescription : String) (cfg : ConfigState) : M String :=
  let superPrompt := buildSuperPrompt mainImageCaption componentCaptions activityDescription cfg "concise"
  let cleanedPrompt := (String.intercalate "\n" ((((superPrompt.splitOn "\n").drop 1).dropLast).filter (fun line => line.trim != ""))).trim
  let finalPrompt := "Build this app: " ++ cleanedPrompt
  M.pure ("This is a mock super prompt response based on: " ++ finalPrompt.take 50 ++ "...")

/-- The system prompt of the detector's single gateway call (main, line 248). -/
def getComponentsSystemPrompt (detectionTerm : String) : String :=
  "As a UI analysis expert, identify " ++ detectionTerm ++ "s in the interface."

/-- The instructional user prompt of the detector (main, lines 222-242).
Literal braces are written with hexadecimal escapes. -/
def getComponentsUserPrompt (maxComponents : Nat) : String :=
  "Analyze this UI interface and identify up to " ++ toString maxComponents ++ " UI components.\n      For each component, provide the following information:\n      1. Location description (e.g., \"top left\", \"bottom center of page\", etc.)\n      2. Component type (e.g., button, input field, navigation bar, icon, etc.)\n      3. Bounding box estimation (relative to entire image, x,y coordinates of top-left corner and width, height in pixels)\n      4. Component confidence (0.0 to 1.0)\n      5. Component text content (if visible)\n      \n      Return results in JSON format:\n      \x7b\n        \"components\": [\n          \x7b\n            \"id\": numeric ID,\n            \"type\": \"component type\",\n            \"location\": \"location description\",\n            \"bbox\": [x, y, width, height],\n            \"confidence\": confidence,\n            \"text\": \"text content\"\n          \x7d\n        ]\n      \x7d"

/-- The request issued by the detector (main, lines 246-253). -/
def getComponentsArgs (detectionTerm : String) (maxComponents : Nat) : VisionArgs :=
  ⟨getComponentsSystemPrompt detectionTerm, getComponentsUserPrompt maxComponents, 2/10, true, "gpt-4o"⟩

/-- The body of the detector's map callback (main, lines 267-274) once the
item's `bbox` field has been read without throwing (so `item` is not null):
defaults missing fields.  `bbox` is taken as-is when the read field
(`bboxField`) holds an array of whatever length; otherwise it is normalized
from a truthy `box` object's `x`/`y`/`width`/`height` (each `|| 0`);
otherwise it defaults to `[0, 0, 0, 0]`. -/
def mkUIDetectionFields (detectionTerm : String) (index : Nat) (item : Json) (bboxField : Option Json) : UIDetection :=
  let bbox : Json :=
    match bboxField with
    | some (Json.arr xs) => Json.arr xs
    | _ =>
      match item.getField "box" with
      | some box =>
        if jsTruthy box then
          Json.arr [jsOr (box.getField "x") (Json.num 0), jsOr (box.getField "y") (Json.num 0),
                    jsOr (box.getField "width") (Json.num 0), jsOr (box.getField "height") (Json.num 0)]
        else
          Json.arr [Json.num 0, Json.num 0, Json.num 0, Json.num 0]
      | none => Json.arr [Json.num 0, Json.num 0, Json.num 0, Json.num 0]
  ⟨jsOr (item.getField "type") (Json.str "component"),
   bbox,
   jsOr (item.getField "confidence") (Json.num 1),
   jsOr (item.getField "text") (jsOr (item.getField "location") (Json.str (detectionTerm ++ " " ++ toString index)))⟩

/-- The per-item conversion of the detector (main, lines 265-275): the map
callback turning one parsed item into a `UIDetection`.  Its first evaluation
step, `item.bbox` in the `Array.isArray` test (line 267), throws a
`TypeError` when the item is `null`; the remaining accesses then sit on a
receiver known to be non-null. -/
def mkUIDetection (detectionTerm : String) (index : Nat) (item : Json) : Except String UIDetection :=
  match item.getFieldOrThrow "bbox" with
  | Except.error e => Except.error e
  | Except.ok bboxField => Except.ok (mkUIDetectionFields detectionTerm index item bboxField)

/-- The detector's `items.slice(0, maxComponents).map((item, index) => ...)`
applies the callback left to right, so the `TypeError` a null item raises
aborts the whole conversion; this models the traversal after the `slice`. -/
def mapDetections (detectionTerm : String) : Nat → List Json → Except String (List UIDetection)
  | _, [] => Except.ok []
  | index, item :: rest =>
    match mkUIDetection detectionTerm index item with
    | Except.error e => Except.error e
    | Except.ok d =>
      match mapDetections detectionTerm (index + 1) rest with
      | Except.error e => Except.error e
      | Except.ok ds => Except.ok (d :: ds)

/-- The detector's `items.slice(0, maxComponents).map(...)` (main, line 265):
truncation to the cap followed by the per-item conversion, indices counted
over the truncated list; a throwing item aborts with its `TypeError`. -/
def detectionsOfItems (detectionTerm : String) (maxComponents : Nat) (items : List Json) : Except String (List UIDetection) :=
  mapDetections detectionTerm 0 (items.take maxComponents)

/-- `createDetector(...).getComponents` (main, lines 212-287): one gateway
call, `JSON.parse`, read of the `components` key, then truncation and
conversion.  The surrounding `try/catch` turns every thrown exception into
the empty list: a gateway failure, a parse `SyntaxError`, the `TypeError` of
reading `.components` on a null response, and the `TypeError` the map
callback raises on a null item.  A `components` value that is present but
neither array nor falsy also ends as the empty list in the source (through
`|| []`, the `!items.length` test, or a `TypeError` landing in the same
`catch`), which the wildcard arm reproduces. -/
def getComponents (parse : String → Option Json) (g : Gateway) (cfg : ConfigState) (maxComponents : Nat) : M (List UIDetection) :=
  let detectionTerm := getDetectionTerm cfg
  M.tryCatch
    (M.bind (callVisionAPI g (getComponentsArgs detectionTerm maxComponents)) (fun response =>
      match parse response with
      | none => M.throw "SyntaxError: Unexpected token in JSON"
      | some parsedResponse =>
        match parsedResponse.getFieldOrThrow "components" with
        | Except.error e => M.throw e
        | Except.ok (some (Json.arr items)) =>
          if items.isEmpty then M.pure []
          else
            match detectionsOfItems detectionTerm maxComponents items with
            | Except.error e => M.throw e
            | Except.ok ds => M.pure ds
        | Except.ok _ => M.pure []))
    (fun _ => M.pure [])

/-- The `for` loop of `processImage` (main, lines 320-329): one
`analyzeDetection` call per detection, sequential, index-threaded, results
accumulated in order. -/
def analyzeDetectionsLoop (g : Gateway) (cfg : ConfigState) (i : Nat) : List UIDetection → M (List String)
  | [] => M.pure []
  | detection :: rest =>
    M.bind (analyzeDetection g cfg i detection.text) (fun analysisResult =>
      M.bind (analyzeDetectionsLoop g cfg (i + 1) rest) (fun results =>
        M.pure (analysisResult :: results)))

/-- `processImage` (main, lines 292-348): the pipeline entry point.  Detect;
on zero detections return the sentinel record immediately; otherwise analyze
the main design and the activity, fan out over the detections in order, and
synthesize.  The outer `catch` converts any escaped exception into the error
sentinel record.  The unused `minArea` parameter of the source is dropped;
`maxDetections` defaults to `MAX_UI_COMPONENTS` at the source's call sites. -/
def processImage (parse : String → Option Json) (g : Gateway) (cfg : ConfigState) (maxDetections : Nat) : M AnalysisResponse :=
  M.tryCatch
    (M.bind (getComponents parse g cfg maxDetections) (fun detections =>
      if detections.isEmpty then
        M.pure ⟨"No " ++ getDetectionTerm cfg ++ "s detected.", [], "Error during analysis"⟩
      else
        M.bind (analyzeMainDesignChoices g (1/10)) (fun mainDesignChoices =>
          M.bind (describeActivity g) (fun activityDescription =>
            M.bind (analyzeDetectionsLoop g cfg 0 detections) (fun detectionAnalyses =>
              M.bind (callSuperPrompt mainDesignChoices detectionAnalyses activityDescription cfg) (fun finalAnalysis =>
                M.pure ⟨mainDesignChoices, detectionAnalyses, finalAnalysis⟩))))))
    (fun _ => M.pure ⟨"Error processing image", [], "Error during analysis"⟩)

/-! Helper lemmas: string facts and run characterizations of the stages. -/

/-- Appending strings appends their character data. -/
theorem stringDataAppend (a b : String) : (a ++ b).data = a.data ++ b.data := rfl

/-- String append is associative. -/
theorem stringAppendAssoc (a b c : String) : a ++ b ++ c = a ++ (b ++ c) := by
  cases a with
  | mk da =>
    cases b with
    | mk db =>
      cases c with
      | mk dc => exact congrArg String.mk (List.append_assoc da db dc)

/-- Run of `callVisionAPI` on a successful gateway: trimmed text, one
recorded call. -/
theorem callVisionAPI_ok {g : Gateway} {args : VisionArgs} {v : String}
    (h : g args = Except.ok v) (t : List VisionArgs) :
    callVisionAPI g args t = (Except.ok v.trim, t ++ [args]) := by
  simp [callVisionAPI, h]

/-- Run of `callVisionAPI` on a failing gateway: the exception propagates,
the call is still recorded. -/
theorem callVisionAPI_error {g : Gateway} {args : VisionArgs} {e : String}
    (h : g args = Except.error e) (t : List VisionArgs) :
    callVisionAPI g args t = (Except.error e, t ++ [args]) := by
  simp [callVisionAPI, h]

/-- `analyzeMainDesignChoices` always succeeds with some string (its catch
swallows failures), and makes exactly one gateway call. -/
theorem analyzeMainDesignChoices_run (g : Gateway) (temp : ℚ) (t : List VisionArgs) :
    ∃ v, analyzeMainDesignChoices g temp t = (Except.ok v, t ++ [mainDesignArgs temp]) := by
  cases h : g (mainDesignArgs temp) with
  | ok v => exact ⟨v.trim, by simp [analyzeMainDesignChoices, M.tryCatch, callVisionAPI, h, M.pure]⟩
  | error e => exact ⟨"Error analyzing main design structure", by simp [analyzeMainDesignChoices, M.tryCatch, callVisionAPI, h, M.pure]⟩

/-- Property access on a non-null value never throws and agrees with
`Json.getField`. -/
theorem Json.getFieldOrThrow_of_ne_null (j : Json) (key : String) (h : j ≠ Json.null) :
    j.getFieldOrThrow key = Except.ok (j.getField key) := by
  cases j with
  | null => exact absurd rfl h
  | bool b => rfl
  | num q => rfl
  | str s => rfl
  | arr xs => rfl
  | obj fields => rfl

/-- A successful conversion has one detection per traversed item. -/
theorem mapDetections_length (term : String) :
    ∀ (items : List Json) (i : Nat) (ds : List UIDetection),
      mapDetections term i items = Except.ok ds → ds.length = items.length := by
  intro items
  induction items with
  | nil =>
    intro i ds h
    simp only [mapDetections, Except.ok.injEq] at h
    rw [← h]
    rfl
  | cons a l ih =>
    intro i ds h
    simp only [mapDetections] at h
    cases hm : mkUIDetection term i a with
    | error e => rw [hm] at h; cases h
    | ok d =>
      rw [hm] at h
      cases hrest : mapDetections term (i + 1) l with
      | error e => rw [hrest] at h; cases h
      | ok ds₁ =>
        rw [hrest] at h
        cases h
        simp [ih (i + 1) ds₁ hrest]

/-- Run of the detector when the gateway answers, the answer parses, a
`components` array is present, and the conversion of the truncated items
succeeds: the converted list is returned. -/
theorem getComponents_ok {parse : String → Option Json} {g : Gateway} {cfg : ConfigState} {cap : Nat}
    {resp : String} {j : Json} {items : List Json} {ds : List UIDetection}
    (hg : g (getComponentsArgs (getDetectionTerm cfg) cap) = Except.ok resp)
    (hp : parse resp.trim = some j)
    (hc : j.getFieldOrThrow "components" = Except.ok (some (Json.arr items)))
    (hds : detectionsOfItems (getDetectionTerm cfg) cap items = Except.ok ds) (t : List VisionArgs) :
    getComponents parse g cfg cap t
      = (Except.ok ds, t ++ [getComponentsArgs (getDetectionTerm cfg) cap]) := by
  cases items with
  | nil =>
    have hnil : detectionsOfItems (getDetectionTerm cfg) cap ([] : List Json) = Except.ok [] := by
      simp [detectionsOfItems, mapDetections]
    rw [hnil] at hds
    cases hds
    simp [getComponents, M.tryCatch, M.bind, callVisionAPI, hg, hp, hc, M.pure]
  | cons a l => simp [getComponents, M.tryCatch, M.bind, callVisionAPI, hg, hp, hc, hds, M.pure]

/-- Run of the detector when a truncated item throws in the map callback (a
null item): the whole batch degrades to the empty list. -/
theorem getComponents_conv_error {parse : String → Option Json} {g : Gateway} {cfg : ConfigState} {cap : Nat}
    {resp : String} {j : Json} {items : List Json} {e : String}
    (hg : g (getComponentsArgs (getDetectionTerm cfg) cap) = Except.ok resp)
    (hp : parse resp.trim = some j)
    (hc : j.getFieldOrThrow "components" = Except.ok (some (Json.arr items)))
    (hds : detectionsOfItems (getDetectionTerm cfg) cap items = Except.error e) (t : List VisionArgs) :
    getComponents parse g cfg cap t = (Except.ok [], t ++ [getComponentsArgs (getDetectionTerm cfg) cap]) := by
  cases items with
  | nil =>
    have hnil : detectionsOfItems (getDetectionTerm cfg) cap ([] : List Json) = Except.ok [] := by
      simp [detectionsOfItems, mapDetections]
    rw [hnil] at hds
    cases hds
  | cons a l =>
    simp [getComponents, M.tryCatch, M.bind, callVisionAPI, hg, hp, hc, hds, M.throw, M.pure]

/-- Run of the detector when the gateway itself fails: empty list. -/
theorem getComponents_gateway_error {parse : String → Option Json} {g : Gateway} {cfg : ConfigState} {cap : Nat}
    {e : String} (hg : g (getComponentsArgs (getDetectionTerm cfg) cap) = Except.error e) (t : List VisionArgs) :
    getComponents parse g cfg cap t = (Except.ok [], t ++ [getComponentsArgs (getDetectionTerm cfg) cap]) := by
  simp [getComponents, M.tryCatch, M.bind, callVisionAPI, hg, M.pure]

/-- Run of the detector when `JSON.parse` throws: empty list. -/
theorem getComponents_parse_none {parse : String → Option Json} {g : Gateway} {cfg : ConfigState} {cap : Nat}
    {resp : String} (hg : g (getComponentsArgs (getDetectionTerm cfg) cap) = Except.ok resp)
    (hp : parse resp.trim = none) (t : List VisionArgs) :
    getComponents parse g cfg cap t = (Except.ok [], t ++ [getComponentsArgs (getDetectionTerm cfg) cap]) := by
  simp [getComponents, M.tryCatch, M.bind, callVisionAPI, hg, hp, M.throw, M.pure]

/-- Run of the detector when the parsed response has no `components` key:
empty list (for a null response the access throws into the catch; for any
other response it reads `undefined`, and `|| []` yields the empty list). -/
theorem getComponents_components_none {parse : String → Option Json} {g : Gateway} {cfg : ConfigState} {cap : Nat}
    {resp : String} {j : Json} (hg : g (getComponentsArgs (getDetectionTerm cfg) cap) = Except.ok resp)
    (hp : parse resp.trim = some j) (hc : j.getField "components" = none) (t : List VisionArgs) :
    getComponents parse g cfg cap t = (Except.ok [], t ++ [getComponentsArgs (getDetectionTerm cfg) cap]) := by
  by_cases hnull : j = Json.null
  · subst hnull
    simp [getComponents, M.tryCatch, M.bind, callVisionAPI, hg, hp, Json.getFieldOrThrow, M.throw, M.pure]
  · have hfe := Json.getFieldOrThrow_of_ne_null j "components" hnull
    rw [hc] at hfe
    simp [getComponents, M.tryCatch, M.bind, callVisionAPI, hg, hp, hfe, M.pure]

/-- Run of the detector when the `components` key holds the empty array:
empty list, before any conversion. -/
theorem getComponents_components_empty {parse : String → Option Json} {g : Gateway} {cfg : ConfigState} {cap : Nat}
    {resp : String} {j : Json} (hg : g (getComponentsArgs (getDetectionTerm cfg) cap) = Except.ok resp)
    (hp : parse resp.trim = some j) (hc : j.getField "components" = some (Json.arr [])) (t : List VisionArgs) :
    getComponents parse g cfg cap t = (Except.ok [], t ++ [getComponentsArgs (getDetectionTerm cfg) cap]) := by
  have hnull : j ≠ Json.null := by
    intro h
    subst h
    simp [Json.getField] at hc
  have hfe := Json.getFieldOrThrow_of_ne_null j "components" hnull
  rw [hc] at hfe
  simp [getComponents, M.tryCatch, M.bind, callVisionAPI, hg, hp, hfe, M.pure]

/-- Whatever happens, the detector makes exactly one gateway call. -/
theorem getComponents_trace (parse : String → Option Json) (g : Gateway) (cfg : ConfigState) (cap : Nat) (t : List VisionArgs) :
    (getComponents parse g cfg cap t).2 = t ++ [getComponentsArgs (getDetectionTerm cfg) cap] := by
  unfold getComponents M.tryCatch M.bind callVisionAPI M.throw M.pure
  cases hg : g (getComponentsArgs (getDetectionTerm cfg) cap) with
  | error e => rfl
  | ok resp =>
    cases hp : parse resp.trim with
    | none => simp [hp]
    | some j =>
      simp only [hp]
      cases hc : j.getFieldOrThrow "components" with
      | error e => simp
      | ok fieldVal =>
        cases fieldVal with
        | none => simp
        | some v =>
          cases v with
          | arr items =>
            cases items with
            | nil => simp
            | cons a l =>
              cases hds : detectionsOfItems (getDetectionTerm cfg) cap (a :: l) <;> simp [hds]
          | null => simp
          | bool b => simp
          | num q => simp
          | str s => simp
          | obj fields => simp

/-! Claim C3 (corrected). -/

/-- A gateway that fails every request. -/
def gatewayDownC3 : Gateway := fun _ => Except.error "ProviderError: 500"

/-- C3 counterexample: the claim says `describeActivity` returns a fixed
error sentinel string instead of propagating a Gateway failure.  On the
concrete always-failing gateway, `describeActivity` instead propagates the
exception to its caller: its result is the error, not an `ok` sentinel. -/
theorem describeActivity_propagates_counterexample :
    describeActivity gatewayDownC3 [] = (Except.error "ProviderError: 500", [describeActivityArgs])
    ∧ ∀ s, (describeActivity gatewayDownC3 []).1 ≠ Except.ok s := by
  constructor
  · rfl
  · intro s h
    simp [describeActivity, callVisionAPI, gatewayDownC3] at h

/-- C3 amended: on Gateway failure `analyzeMainDesignChoices` returns the
fixed sentinel "Error analyzing main design structure" (swallowing the
exception), while `describeActivity` — which has no try/catch — propagates
the exception to its caller unchanged. -/
theorem analyzeMainDesign_sentinel_describeActivity_propagates
    (g : Gateway) (t : List VisionArgs) (temp : ℚ) (e₁ e₂ : String)
    (h₁ : g (mainDesignArgs temp) = Except.error e₁)
    (h₂ : g describeActivityArgs = Except.error e₂) :
    analyzeMainDesignChoices g temp t
      = (Except.ok "Error analyzing main design structure", t ++ [mainDesignArgs temp])
    ∧ describeActivity g t = (Except.error e₂, t ++ [describeActivityArgs]) := by
  constructor
  · simp [analyzeMainDesignChoices, M.tryCatch, callVisionAPI, h₁, M.pure]
  · simp [describeActivity, callVisionAPI, h₂]

/-- A gateway that fails every request, for the C3 witness. -/
def gatewayDownW3 : Gateway := fun _ => Except.error "boom"

/-- Witness for the amended C3 at a concrete failing gateway. -/
theorem analyzeMainDesign_sentinel_describeActivity_propagates_witness :
    analyzeMainDesignChoices gatewayDownW3 (1/10) []
      = (Except.ok "Error analyzing main design structure", [mainDesignArgs (1/10)])
    ∧ describeActivity gatewayDownW3 [] = (Except.error "boom", [describeActivityArgs]) :=
  analyzeMainDesign_sentinel_describeActivity_propagates gatewayDownW3 [] (1/10) "boom" "boom" rfl rfl

/-! Claim C8 (confirmed). -/

/-- C8: `setPromptChoice` throws its InvalidArgument error on any argument
other than the two recognized verbosity levels, leaving the stored state
unchanged, and stores the given level on the two recognized ones. -/
theorem setPromptChoice_invalid_rejected_valid_stored (s : ConfigState) (choice : String) :
    ((choice ≠ "concise" ∧ choice ≠ "extensive") →
      setPromptChoice choice s
        = (Except.error "Invalid prompt choice. Must be \x27concise\x27 or \x27extensive\x27", s))
    ∧ ((choice = "concise" ∨ choice = "extensive") →
      setPromptChoice choice s = (Except.ok (), ⟨s.DETECTION_METHOD, s.DETECTION_TERM, choice⟩)) := by
  constructor
  · intro h
    simp only [setPromptChoice]
    rw [if_pos h]
  · intro h
    simp only [setPromptChoice]
    rcases h with h | h <;> subst h
    · rw [if_neg (fun hc => hc.1 rfl)]
    · rw [if_neg (fun hc => hc.2 rfl)]

/-- Witness for C8: "invalid" is rejected with the state unchanged, while
"extensive" is stored. -/
theorem setPromptChoice_invalid_rejected_valid_stored_witness :
    ("invalid" ≠ "concise" ∧ "invalid" ≠ "extensive")
    ∧ setPromptChoice "invalid" initialConfig
      = (Except.error "Invalid prompt choice. Must be \x27concise\x27 or \x27extensive\x27", initialConfig)
    ∧ setPromptChoice "extensive" initialConfig
      = (Except.ok (), ⟨initialConfig.DETECTION_METHOD, initialConfig.DETECTION_TERM, "extensive"⟩) :=
  ⟨⟨by decide, by decide⟩,
   (setPromptChoice_invalid_rejected_valid_stored initialConfig "invalid").1 ⟨by decide, by decide⟩,
   (setPromptChoice_invalid_rejected_valid_stored initialConfig "extensive").2 (Or.inr rfl)⟩

/-! Claim C9 (confirmed). -/

/-- C9: a successful `analyzeDetection` call with location label L returns
the marker line "[Location: L]", a newline, and the Gateway's (trimmed)
model text, and makes exactly one gateway call. -/
theorem analyzeDetection_location_marker
    (g : Gateway) (cfg : ConfigState) (i : Nat) (L : String) (t : List VisionArgs) (v : String)
    (h : g (analyzeDetectionArgs (getDetectionTerm cfg) i (Json.str L)) = Except.ok v) :
    analyzeDetection g cfg i (Json.str L) t
      = (Except.ok ("[Location: " ++ L ++ "]\n" ++ v.trim),
         t ++ [analyzeDetectionArgs (getDetectionTerm cfg) i (Json.str L)]) := by
  simp [analyzeDetection, M.bind, callVisionAPI, h, M.pure, jsToString]

/-- A gateway that answers every request with fixed model text, for the C9
witness. -/
def gatewayOkC9 : Gateway := fun _ => Except.ok " model text "

/-- Witness for C9 at location label "top left". -/
theorem analyzeDetection_location_marker_witness :
    gatewayOkC9 (analyzeDetectionArgs (getDetectionTerm initialConfig) 2 (Json.str "top left"))
      = Except.ok " model text "
    ∧ analyzeDetection gatewayOkC9 initialConfig 2 (Json.str "top left") []
      = (Except.ok ("[Location: " ++ "top left" ++ "]\n" ++ " model text ".trim),
         [analyzeDetectionArgs (getDetectionTerm initialConfig) 2 (Json.str "top left")]) :=
  ⟨rfl, analyzeDetection_location_marker gatewayOkC9 initialConfig 2 "top left" [] " model text " rfl⟩

/-! Claim C10 (confirmed). -/

/-- C10: `callSuperPrompt` never reads the stored verbosity setting: its
result and gateway-call trace are unchanged under any `PROMPT_CHOICE` value
(also under a successful `setPromptChoice`), and the final prompt it embeds
in the mock response is built from the concise `buildSuperPrompt` template,
cleaned and prefixed with the "Build this app: " instruction, with no
gateway call made. -/
theorem callSuperPrompt_ignores_prompt_choice
    (m : String) (cs : List String) (a : String) (cfg : ConfigState) (choice : String) (t : List VisionArgs) :
    callSuperPrompt m cs a ⟨cfg.DETECTION_METHOD, cfg.DETECTION_TERM, choice⟩ t = callSuperPrompt m cs a cfg t
    ∧ callSuperPrompt m cs a cfg t
      = (Except.ok ("This is a mock super prompt response based on: "
          ++ ("Build this app: "
              ++ (String.intercalate "\n"
                  (((((buildSuperPrompt m cs a cfg "concise").splitOn "\n").drop 1).dropLast).filter
                    (fun line => line.trim != ""))).trim).take 50
          ++ "..."), t)
    ∧ (∀ s₁, setPromptChoice choice cfg = (Except.ok (), s₁) →
        callSuperPrompt m cs a s₁ t = callSuperPrompt m cs a cfg t) := by
  refine ⟨rfl, rfl, ?_⟩
  intro s₁ h
  unfold setPromptChoice at h
  split at h
  · simp at h
  · cases h
    rfl

/-- Witness for C10: storing "extensive" through `setPromptChoice` leaves
the synthesizer's output unchanged. -/
theorem callSuperPrompt_ignores_prompt_choice_witness :
    setPromptChoice "extensive" initialConfig
      = (Except.ok (), ⟨DetectionMethod.llm, "component", "extensive"⟩)
    ∧ callSuperPrompt "main caption" ["component one"] "activity" ⟨DetectionMethod.llm, "component", "extensive"⟩ []
      = callSuperPrompt "main caption" ["component one"] "activity" initialConfig [] :=
  ⟨rfl,
   (callSuperPrompt_ignores_prompt_choice "main caption" ["component one"] "activity" initialConfig "extensive" []).2.2
     ⟨DetectionMethod.llm, "component", "extensive"⟩ rfl⟩

/-! Claim C4 (confirmed). -/

/-- C4: for any cap at least 1 and any parsed model response carrying a
`components` list of whatever length, the detector returns at most cap
detections with an `ok` result; and whenever the conversion of the first
cap items goes through (no null item among them), the result is exactly the
converted truncation — the excess items are dropped without error.  (When a
null item makes the map callback throw, the catch degrades the whole batch
to the empty list, still at most cap.) -/
theorem getComponents_truncates_to_cap
    (parse : String → Option Json) (g : Gateway) (cfg : ConfigState) (cap : Nat) (t : List VisionArgs)
    (resp : String) (j : Json) (items : List Json)
    (hcap : 1 ≤ cap)
    (hg : g (getComponentsArgs (getDetectionTerm cfg) cap) = Except.ok resp)
    (hp : parse resp.trim = some j)
    (hc : j.getFieldOrThrow "components" = Except.ok (some (Json.arr items))) :
    (∃ ds, getComponents parse g cfg cap t
        = (Except.ok ds, t ++ [getComponentsArgs (getDetectionTerm cfg) cap])
      ∧ ds.length ≤ cap)
    ∧ (∀ ds, detectionsOfItems (getDetectionTerm cfg) cap items = Except.ok ds →
        getComponents parse g cfg cap t
          = (Except.ok ds, t ++ [getComponentsArgs (getDetectionTerm cfg) cap])
        ∧ ds.length ≤ cap) := by
  have hlen : ∀ ds, detectionsOfItems (getDetectionTerm cfg) cap items = Except.ok ds → ds.length ≤ cap := by
    intro ds hds
    have hl := mapDetections_length (getDetectionTerm cfg) (items.take cap) 0 ds hds
    rw [hl, List.length_take]
    exact Nat.min_le_left _ _
  constructor
  · cases hds : detectionsOfItems (getDetectionTerm cfg) cap items with
    | error e => exact ⟨[], getComponents_conv_error hg hp hc hds t, by simp⟩
    | ok ds => exact ⟨ds, getComponents_ok hg hp hc hds t, hlen ds hds⟩
  · intro ds hds
    exact ⟨getComponents_ok hg hp hc hds t, hlen ds hds⟩

/-- Eight reported items, more than the default cap of six. -/
def itemsC4 : List Json :=
  [Json.obj [("text", Json.str "a")], Json.obj [("text", Json.str "b")],
   Json.obj [("text", Json.str "c")], Json.obj [("text", Json.str "d")],
   Json.obj [("text", Json.str "e")], Json.obj [("text", Json.str "f")],
   Json.obj [("text", Json.str "g")], Json.obj [("text", Json.str "h")]]

/-- A parse oracle returning the eight-item response for any input. -/
def parseC4 : String → Option Json := fun _ => some (Json.obj [("components", Json.arr itemsC4)])

/-- A gateway answering every request, for the C4 witness. -/
def gatewayOkC4 : Gateway := fun _ => Except.ok "RESP"

/-- Witness for C4: eight reported items, cap six, six detections returned. -/
theorem getComponents_truncates_to_cap_witness :
    itemsC4.length = 8
    ∧ ∃ ds, detectionsOfItems "component" 6 itemsC4 = Except.ok ds
        ∧ getComponents parseC4 gatewayOkC4 initialConfig 6 []
          = (Except.ok ds, [getComponentsArgs "component" 6])
        ∧ ds.length ≤ 6
        ∧ ds.length = 6 := by
  have T := getComponents_truncates_to_cap parseC4 gatewayOkC4 initialConfig 6 []
    "RESP" (Json.obj [("components", Json.arr itemsC4)]) itemsC4
    (by decide) rfl rfl rfl
  obtain ⟨ds, hds⟩ : ∃ ds, detectionsOfItems "component" 6 itemsC4 = Except.ok ds := ⟨_, rfl⟩
  obtain ⟨h1, h2⟩ := T.2 ds hds
  refine ⟨rfl, ds, hds, h1, h2, ?_⟩
  rw [mapDetections_length "component" (itemsC4.take 6) 0 ds hds]
  rfl

/-! Claim C5 (confirmed). -/

/-- C5: when the detector's model response fails to parse as JSON, or parses
to a value whose `components` key is absent or holds the empty array, the
detector returns the empty sequence with an `ok` result — no exception
crosses its boundary. -/
theorem getComponents_degrades_to_empty
    (parse : String → Option Json) (g : Gateway) (cfg : ConfigState) (cap : Nat) (t : List VisionArgs)
    (resp : String)
    (hg : g (getComponentsArgs (getDetectionTerm cfg) cap) = Except.ok resp)
    (hcase : parse resp.trim = none
      ∨ ∃ j, parse resp.trim = some j
          ∧ (j.getField "components" = none ∨ j.getField "components" = some (Json.arr []))) :
    getComponents parse g cfg cap t
      = (Except.ok [], t ++ [getComponentsArgs (getDetectionTerm cfg) cap]) := by
  rcases hcase with hp | ⟨j, hp, hc | hc⟩
  · exact getComponents_parse_none hg hp t
  · exact getComponents_components_none hg hp hc t
  · exact getComponents_components_empty hg hp hc t

/-- A parse oracle that fails on every input, for the C5 witness. -/
def parseFailC5 : String → Option Json := fun _ => none

/-- A gateway answering every request with non-JSON text, for the C5
witness. -/
def gatewayOkC5 : Gateway := fun _ => Except.ok "not json"

/-- Witness for C5: an unparseable response yields the empty sequence. -/
theorem getComponents_degrades_to_empty_witness :
    parseFailC5 ("not json".trim) = none
    ∧ getComponents parseFailC5 gatewayOkC5 initialConfig 6 []
      = (Except.ok [], [getComponentsArgs "component" 6]) :=
  ⟨rfl,
   getComponents_degrades_to_empty parseFailC5 gatewayOkC5 initialConfig 6 [] "not json"
     rfl (Or.inl rfl)⟩

/-! Claim C1 (confirmed). -/

/-- C1: when the detector returns zero detections, `processImage` returns
the sentinel record — mainDesign "No <term>s detected.", the empty (but
present) componentAnalyses list, finalAnalysis "Error during analysis" —
and the run's entire gateway-call trace is the single detector call: the
Component Analyzer (whose calls carry `VISION_ANALYSIS_PROMPT`), the Design
Analyzer and the Activity Describer are never invoked.  The second conjunct
records that the sentinel finalAnalysis is not of the form every
Prompt Synthesizer (`callSuperPrompt`) output has, so the synthesizer was
not invoked either. -/
theorem processImage_zero_detections_short_circuit
    (parse : String → Option Json) (g : Gateway) (cfg : ConfigState) (cap : Nat) (t : List VisionArgs)
    (h : (getComponents parse g cfg cap t).1 = Except.ok []) :
    processImage parse g cfg cap t
      = (Except.ok ⟨"No " ++ getDetectionTerm cfg ++ "s detected.", [], "Error during analysis"⟩,
         t ++ [getComponentsArgs (getDetectionTerm cfg) cap])
    ∧ (∀ s, "Error during analysis" ≠ "This is a mock super prompt response based on: " ++ s) := by
  constructor
  · have htr := getComponents_trace parse g cfg cap t
    have hpair : getComponents parse g cfg cap t
        = (Except.ok [], t ++ [getComponentsArgs (getDetectionTerm cfg) cap]) := by
      rw [Prod.ext_iff]
      exact ⟨h, htr⟩
    simp [processImage, M.tryCatch, M.bind, hpair, M.pure]
  · intro s h'
    have hd := congrArg String.data h'
    rw [stringDataAppend] at hd
    simp at hd

/-- A parse oracle that fails on every input, for the C1 witness. -/
def parseFailC1 : String → Option Json := fun _ => none

/-- A gateway answering every request with non-JSON text, for the C1
witness. -/
def gatewayOkC1 : Gateway := fun _ => Except.ok "no components here"

/-- Witness for C1: a run whose detector comes back empty short-circuits to
the sentinel record after exactly one gateway call. -/
theorem processImage_zero_detections_short_circuit_witness :
    (getComponents parseFailC1 gatewayOkC1 initialConfig 6 []).1 = Except.ok []
    ∧ processImage parseFailC1 gatewayOkC1 initialConfig 6 []
      = (Except.ok ⟨"No " ++ getDetectionTerm initialConfig ++ "s detected.", [], "Error during analysis"⟩,
         [getComponentsArgs (getDetectionTerm initialConfig) 6]) :=
  ⟨rfl,
   (processImage_zero_detections_short_circuit parseFailC1 gatewayOkC1 initialConfig 6 [] rfl).1⟩

/-! Claim C6 (corrected). -/

/-- A reported item whose `bbox` is a two-element array: not the claim's
4-element array form, and no object form anywhere. -/
def itemC6 : Json := Json.obj [("type", Json.str "button"), ("bbox", Json.arr [Json.num 1, Json.num 2])]

/-- A parse oracle returning a single-item response built around `itemC6`. -/
def parseC6 : String → Option Json := fun _ => some (Json.obj [("components", Json.arr [itemC6])])

/-- A gateway answering every request, for the C6 counterexample and
witness. -/
def gatewayOkC6 : Gateway := fun _ => Except.ok "RESP"

/-- C6 counterexample: `itemC6` carries neither a 4-element array bbox form
nor any object form, so by the claim its bbox should default to (0,0,0,0);
the detector instead keeps the two-element array as-is (any value for which
`Array.isArray` holds is taken unchanged). -/
theorem getComponents_short_bbox_counterexample :
    (getComponents parseC6 gatewayOkC6 initialConfig 6 []).1
      = Except.ok [⟨Json.str "button", Json.arr [Json.num 1, Json.num 2], Json.num 1, Json.str "component 0"⟩]
    ∧ itemC6.getField "box" = none
    ∧ (∀ xs, itemC6.getField "bbox" = some (Json.arr xs) → xs.length ≠ 4)
    ∧ Json.arr [Json.num 1, Json.num 2] ≠ Json.arr [Json.num 0, Json.num 0, Json.num 0, Json.num 0] := by
  refine ⟨rfl, rfl, ?_, by simp⟩
  intro xs hxs
  have hb : itemC6.getField "bbox" = some (Json.arr [Json.num 1, Json.num 2]) := rfl
  rw [hb] at hxs
  simp only [Option.some.injEq, Json.arr.injEq] at hxs
  rw [← hxs]
  decide

/-- C6 amended: per-item defaults as the code applies them — for a non-null
item, confidence missing gives 1.0; text missing gives the (truthy) location
string, else the synthesized "<term> <index>"; any array under `bbox` is
kept as-is whatever its length; with `bbox` absent, a `box` object form
(read from the separate `box` key) is normalized to the 4-tuple with each
missing coordinate defaulted to 0; with both absent the bbox defaults to
(0,0,0,0).  A null item instead makes the map callback throw the `TypeError`
of reading `bbox`, and the detector then degrades the whole batch to the
empty list; the first two conjuncts tie both outcomes to the detector's
output. -/
theorem getComponents_field_defaults
    (parse : String → Option Json) (g : Gateway) (cfg : ConfigState) (cap : Nat) (t : List VisionArgs)
    (resp : String) (j : Json) (items : List Json)
    (hg : g (getComponentsArgs (getDetectionTerm cfg) cap) = Except.ok resp)
    (hp : parse resp.trim = some j)
    (hc : j.getFieldOrThrow "components" = Except.ok (some (Json.arr items))) :
    (∀ ds, detectionsOfItems (getDetectionTerm cfg) cap items = Except.ok ds →
        getComponents parse g cfg cap t
          = (Except.ok ds, t ++ [getComponentsArgs (getDetectionTerm cfg) cap]))
    ∧ (∀ e, detectionsOfItems (getDetectionTerm cfg) cap items = Except.error e →
        getComponents parse g cfg cap t
          = (Except.ok [], t ++ [getComponentsArgs (getDetectionTerm cfg) cap]))
    ∧ (∀ (term : String) (idx : Nat),
        mkUIDetection term idx Json.null
          = Except.error "TypeError: Cannot read properties of null (reading \x27bbox\x27)")
    ∧ ∀ (term : String) (idx : Nat) (item : Json), item ≠ Json.null →
        ∃ d, mkUIDetection term idx item = Except.ok d
          ∧ (item.getField "confidence" = none → d.confidence = Json.num 1)
          ∧ (∀ l : String, item.getField "text" = none → item.getField "location" = some (Json.str l) →
              l ≠ "" → d.text = Json.str l)
          ∧ (item.getField "text" = none → item.getField "location" = none →
              d.text = Json.str (term ++ " " ++ toString idx))
          ∧ (∀ xs, item.getField "bbox" = some (Json.arr xs) → d.bbox = Json.arr xs)
          ∧ (∀ x y w z : ℚ, item.getField "bbox" = none →
              item.getField "box"
                = some (Json.obj [("x", Json.num x), ("y", Json.num y), ("width", Json.num w), ("height", Json.num z)]) →
              d.bbox = Json.arr [Json.num x, Json.num y, Json.num w, Json.num z])
          ∧ (item.getField "bbox" = none → item.getField "box" = none →
              d.bbox = Json.arr [Json.num 0, Json.num 0, Json.num 0, Json.num 0]) := by
  refine ⟨fun ds hds => getComponents_ok hg hp hc hds t,
         fun e hds => getComponents_conv_error hg hp hc hds t,
         fun term idx => rfl, ?_⟩
  intro term idx item hnn
  have hfe := Json.getFieldOrThrow_of_ne_null item "bbox" hnn
  refine ⟨mkUIDetectionFields term idx item (item.getField "bbox"),
         by simp [mkUIDetection, hfe], ?_, ?_, ?_, ?_, ?_, ?_⟩
  · intro hconf
    simp [mkUIDetectionFields, hconf, jsOr]
  · intro l htext hloc hne
    simp [mkUIDetectionFields, htext, hloc, jsOr, jsTruthy, hne]
  · intro htext hloc
    simp [mkUIDetectionFields, htext, hloc, jsOr]
  · intro xs hbbox
    simp [mkUIDetectionFields, hbbox]
  · intro x y w z hbbox hbox
    have hx' : (Json.obj [("x", Json.num x), ("y", Json.num y), ("width", Json.num w), ("height", Json.num z)]).getField "x"
        = some (Json.num x) := rfl
    have hy' : (Json.obj [("x", Json.num x), ("y", Json.num y), ("width", Json.num w), ("height", Json.num z)]).getField "y"
        = some (Json.num y) := rfl
    have hw' : (Json.obj [("x", Json.num x), ("y", Json.num y), ("width", Json.num w), ("height", Json.num z)]).getField "width"
        = some (Json.num w) := rfl
    have hz' : (Json.obj [("x", Json.num x), ("y", Json.num y), ("width", Json.num w), ("height", Json.num z)]).getField "height"
        = some (Json.num z) := rfl
    simp only [mkUIDetectionFields, hbbox, hbox, jsTruthy, jsOr, hx', hy', hw', hz']
    by_cases hx : x = 0 <;> by_cases hy : y = 0 <;> by_cases hw : w = 0 <;> by_cases hz : z = 0 <;>
      simp [hx, hy, hw, hz]
  · intro hbbox hbox
    simp [mkUIDetectionFields, hbbox, hbox]

/-- An item exercising the location fallback and the `box` object form, for
the C6 witness. -/
def itemC6b : Json :=
  Json.obj [("location", Json.str "top left"),
            ("box", Json.obj [("x", Json.num 10), ("y", Json.num 20), ("width", Json.num 30), ("height", Json.num 40)])]

/-- Witness for the amended C6: the null-item TypeError, defaulted
confidence, location-fallback text, normalized `box` object form, and the
detector link on a concrete run. -/
theorem getComponents_field_defaults_witness :
    getComponents parseC6 gatewayOkC6 initialConfig 6 []
      = (Except.ok [mkUIDetectionFields "component" 0 itemC6 (itemC6.getField "bbox")],
         [getComponentsArgs "component" 6])
    ∧ mkUIDetection "component" 0 Json.null
      = Except.error "TypeError: Cannot read properties of null (reading \x27bbox\x27)"
    ∧ ∃ d, mkUIDetection "component" 3 itemC6b = Except.ok d
        ∧ d.confidence = Json.num 1
        ∧ d.text = Json.str "top left"
        ∧ d.bbox = Json.arr [Json.num 10, Json.num 20, Json.num 30, Json.num 40] := by
  have T := getComponents_field_defaults parseC6 gatewayOkC6 initialConfig 6 []
    "RESP" (Json.obj [("components", Json.arr [itemC6])]) [itemC6] rfl rfl rfl
  refine ⟨T.1 _ rfl, T.2.2.1 "component" 0, ?_⟩
  obtain ⟨d, hd, hconf, htext, hsynth, hbbox, hbox, hdefault⟩ :=
    T.2.2.2 "component" 3 itemC6b (by simp [itemC6b])
  exact ⟨d, hd, hconf rfl, htext "top left" rfl rfl (by decide), hbox 10 20 30 40 rfl rfl⟩

/-! Claim C2 (code_bug). -/

/-- C2: for every design summary, component-summary list, activity
description and configuration, the text `callSuperPrompt` returns begins
with the mock banner "This is a mock super prompt response based on: " and
never begins with "Build this app: ".  The "Build this app: " instruction
exists only on the internal `finalPrompt`, whose first 50 characters the
mock return value embeds after the banner; the source comments the return
as a placeholder for the real final gateway call, which the specification
describes as the intended behaviour. -/
theorem callSuperPrompt_returns_mock_banner
    (m : String) (cs : List String) (a : String) (cfg : ConfigState) (t : List VisionArgs) :
    (∃ rest, (callSuperPrompt m cs a cfg t).1
        = Except.ok ("This is a mock super prompt response based on: " ++ rest))
    ∧ ∀ rest, (callSuperPrompt m cs a cfg t).1 ≠ Except.ok ("Build this app: " ++ rest) := by
  constructor
  · have h : (callSuperPrompt m cs a cfg t).1
        = Except.ok ("This is a mock super prompt response based on: "
            ++ (("Build this app: "
                ++ (String.intercalate "\n"
                    (((((buildSuperPrompt m cs a cfg "concise").splitOn "\n").drop 1).dropLast).filter
                      (fun line => line.trim != ""))).trim).take 50
              ++ "...")) := by
      simp only [callSuperPrompt, M.pure]
      rw [stringAppendAssoc]
    exact ⟨_, h⟩
  · intro rest h
    simp only [callSuperPrompt, M.pure, Except.ok.injEq] at h
    have hd := congrArg String.data h
    simp only [stringDataAppend] at hd
    simp at hd

/-- Witness for C2 at a concrete input; the embedded final prompt is left
symbolic, as the mock return only ever exposes its first 50 characters. -/
theorem callSuperPrompt_returns_mock_banner_witness :
    (∃ rest, (callSuperPrompt "Layout summary" ["[Location: top]\ncomponent spec"] "Browsing activity" initialConfig []).1
        = Except.ok ("This is a mock super prompt response based on: " ++ rest))
    ∧ (callSuperPrompt "Layout summary" ["[Location: top]\ncomponent spec"] "Browsing activity" initialConfig []).1
        ≠ Except.ok ("Build this app: " ++ "anything") :=
  ⟨(callSuperPrompt_returns_mock_banner "Layout summary" ["[Location: top]\ncomponent spec"] "Browsing activity" initialConfig []).1,
   (callSuperPrompt_returns_mock_banner "Layout summary" ["[Location: top]\ncomponent spec"] "Browsing activity" initialConfig []).2 "anything"⟩

/-! Claim C7 (confirmed). -/

/-- One step of sequencing: when the first computation succeeds, `M.bind`
continues with its value and trace. -/
theorem M.bind_run {α β : Type} {x : M α} {f : α → M β} {t t₁ : List VisionArgs} {a : α}
    (hx : x t = (Except.ok a, t₁)) : M.bind x f t = f a t₁ := by
  simp [M.bind, hx]

/-- A `try/catch` whose body succeeds returns the body's result. -/
theorem M.tryCatch_run_ok {α : Type} {x : M α} {handler : String → M α} {t t₁ : List VisionArgs} {a : α}
    (hx : x t = (Except.ok a, t₁)) : M.tryCatch x handler t = (Except.ok a, t₁) := by
  simp [M.tryCatch, hx]

/-- Run of the analysis loop when the gateway answers every per-component
request: the summaries come back in detection order, each as the location
marker plus the per-index model text, with one analyzer gateway call per
detection appended in order. -/
theorem analyzeDetectionsLoop_run (g : Gateway) (cfg : ConfigState) (resps : Nat → String) :
    ∀ (ds : List UIDetection) (i0 : Nat) (t : List VisionArgs),
      (∀ k (hk : k < ds.length),
        g (analyzeDetectionArgs (getDetectionTerm cfg) (i0 + k) (ds.get ⟨k, hk⟩).text) = Except.ok (resps (i0 + k))) →
      analyzeDetectionsLoop g cfg i0 ds t
        = (Except.ok (ds.mapIdx (fun k d => "[Location: " ++ jsToString d.text ++ "]\n" ++ (resps (i0 + k)).trim)),
           t ++ ds.mapIdx (fun k d => analyzeDetectionArgs (getDetectionTerm cfg) (i0 + k) d.text)) := by
  intro ds
  induction ds with
  | nil =>
    intro i0 t h
    simp [analyzeDetectionsLoop, M.pure]
  | cons d rest ih =>
    intro i0 t h
    have hd : g (analyzeDetectionArgs (getDetectionTerm cfg) i0 d.text) = Except.ok (resps i0) :=
      h 0 (Nat.succ_pos rest.length)
    have hrest : ∀ k (hk : k < rest.length),
        g (analyzeDetectionArgs (getDetectionTerm cfg) ((i0 + 1) + k) (rest.get ⟨k, hk⟩).text)
          = Except.ok (resps ((i0 + 1) + k)) := by
      intro k hk
      have e : (i0 + 1) + k = i0 + (k + 1) := by omega
      rw [e]
      exact h (k + 1) (Nat.succ_lt_succ hk)
    have hloop := ih (i0 + 1) (t ++ [analyzeDetectionArgs (getDetectionTerm cfg) i0 d.text]) hrest
    have e : ∀ k : Nat, (i0 + 1) + k = i0 + (k + 1) := fun k => by omega
    simp only [analyzeDetectionsLoop, analyzeDetection, M.bind, callVisionAPI, hd, M.pure, hloop]
    simp only [List.mapIdx_cons, e, Nat.add_zero, List.append_assoc, List.singleton_append]

/-- `callSuperPrompt` always succeeds and makes no gateway call. -/
theorem callSuperPrompt_run (m : String) (cs : List String) (a : String) (cfg : ConfigState) (t : List VisionArgs) :
    ∃ v, callSuperPrompt m cs a cfg t = (Except.ok v, t) :=
  ⟨_, rfl⟩

/-- C7: on a run where the detector returns a non-empty list of n
detections and the run completes normally (the activity and every
per-component gateway call succeed), the result's componentSummaries has
exactly one entry per detection, in detection order, each carrying its
detection's text as the location label, and the gateway trace shows the
analyzer invoked once per detection, sequentially, with indices 0..n-1,
after the detector, design-analysis and activity calls. -/
theorem processImage_fanout_order
    (parse : String → Option Json) (g : Gateway) (cfg : ConfigState) (cap : Nat) (t : List VisionArgs)
    (resp : String) (j : Json) (items : List Json) (ds : List UIDetection) (act : String) (resps : Nat → String)
    (hg : g (getComponentsArgs (getDetectionTerm cfg) cap) = Except.ok resp)
    (hp : parse resp.trim = some j)
    (hc : j.getFieldOrThrow "components" = Except.ok (some (Json.arr items)))
    (hds : detectionsOfItems (getDetectionTerm cfg) cap items = Except.ok ds)
    (hne : ds ≠ [])
    (hact : g describeActivityArgs = Except.ok act)
    (hana : ∀ k (hk : k < ds.length),
        g (analyzeDetectionArgs (getDetectionTerm cfg) k (ds.get ⟨k, hk⟩).text) = Except.ok (resps k)) :
    ∃ r : AnalysisResponse,
      processImage parse g cfg cap t
        = (Except.ok r,
           t ++ [getComponentsArgs (getDetectionTerm cfg) cap, mainDesignArgs (1/10), describeActivityArgs]
             ++ ds.mapIdx (fun k d => analyzeDetectionArgs (getDetectionTerm cfg) k d.text))
      ∧ r.componentAnalyses
          = ds.mapIdx (fun k d => "[Location: " ++ jsToString d.text ++ "]\n" ++ (resps k).trim)
      ∧ r.componentAnalyses.length = ds.length := by
  have hcomp := getComponents_ok hg hp hc hds t
  have hdne : ds.isEmpty = false := by
    cases ds with
    | nil => exact absurd rfl hne
    | cons a l => rfl
  obtain ⟨mdv, hmd⟩ := analyzeMainDesignChoices_run g (1/10) (t ++ [getComponentsArgs (getDetectionTerm cfg) cap])
  have hactrun := callVisionAPI_ok hact (t ++ [getComponentsArgs (getDetectionTerm cfg) cap] ++ [mainDesignArgs (1/10)])
  have hana0 : ∀ k (hk : k < ds.length),
      g (analyzeDetectionArgs (getDetectionTerm cfg) (0 + k) (ds.get ⟨k, hk⟩).text) = Except.ok (resps (0 + k)) := by
    intro k hk
    rw [Nat.zero_add]
    exact hana k hk
  have hloop := analyzeDetectionsLoop_run g cfg resps ds 0
    (t ++ [getComponentsArgs (getDetectionTerm cfg) cap] ++ [mainDesignArgs (1/10)] ++ [describeActivityArgs]) hana0
  simp only [Nat.zero_add] at hloop
  obtain ⟨fv, hfv⟩ := callSuperPrompt_run mdv
    (ds.mapIdx (fun k d => "[Location: " ++ jsToString d.text ++ "]\n" ++ (resps k).trim))
    act.trim cfg
    (t ++ [getComponentsArgs (getDetectionTerm cfg) cap] ++ [mainDesignArgs (1/10)] ++ [describeActivityArgs]
      ++ ds.mapIdx (fun k d => analyzeDetectionArgs (getDetectionTerm cfg) k d.text))
  have hne' : ¬ (ds.isEmpty = true) := by
    simp [hdne]
  have hact' : describeActivity g
      (t ++ [getComponentsArgs (getDetectionTerm cfg) cap] ++ [mainDesignArgs (1/10)])
      = (Except.ok act.trim,
         t ++ [getComponentsArgs (getDetectionTerm cfg) cap] ++ [mainDesignArgs (1/10)] ++ [describeActivityArgs]) :=
    hactrun
  refine ⟨⟨mdv,
      ds.mapIdx (fun k d => "[Location: " ++ jsToString d.text ++ "]\n" ++ (resps k).trim),
      fv⟩, ?_, rfl, by simp [List.length_mapIdx]⟩
  unfold processImage
  refine M.tryCatch_run_ok ?_
  rw [M.bind_run hcomp]
  rw [if_neg hne']
  rw [M.bind_run hmd]
  rw [M.bind_run hact']
  rw [M.bind_run hloop]
  rw [M.bind_run hfv]
  simp only [M.pure]
  simp [List.append_assoc]

/-- First reported item of the C7 witness scenario. -/
def itemC7a : Json :=
  Json.obj [("text", Json.str "top nav"), ("bbox", Json.arr [Json.num 10, Json.num 10, Json.num 50, Json.num 20])]

/-- Second reported item of the C7 witness scenario. -/
def itemC7b : Json :=
  Json.obj [("text", Json.str "footer"), ("bbox", Json.arr [Json.num 100, Json.num 50, Json.num 80, Json.num 30])]

/-- The parsed two-detection response of the C7 witness scenario. -/
def jsonC7 : Json := Json.obj [("components", Json.arr [itemC7a, itemC7b])]

/-- A parse oracle returning the two-detection response for any input. -/
def parseC7 : String → Option Json := fun _ => some jsonC7

/-- A gateway answering structured requests with "RESP" and plain-text
requests with "TEXT". -/
def gatewayC7 : Gateway := fun args => if args.jsonResponse then Except.ok "RESP" else Except.ok "TEXT"

/-- The two detections the C7 witness scenario converts from the reported
items. -/
def detsC7 : List UIDetection :=
  [⟨Json.str "component", Json.arr [Json.num 10, Json.num 10, Json.num 50, Json.num 20], Json.num 1, Json.str "top nav"⟩,
   ⟨Json.str "component", Json.arr [Json.num 100, Json.num 50, Json.num 80, Json.num 30], Json.num 1, Json.str "footer"⟩]

/-- Witness for C7: two reported detections, run completes, two summaries in
order, analyzer trace with indices 0 and 1 and the detections' texts. -/
theorem processImage_fanout_order_witness :
    detectionsOfItems "component" 6 [itemC7a, itemC7b] = Except.ok detsC7
    ∧ gatewayC7 describeActivityArgs = Except.ok "TEXT"
    ∧ ∃ r : AnalysisResponse,
        processImage parseC7 gatewayC7 initialConfig 6 []
          = (Except.ok r,
             [getComponentsArgs "component" 6, mainDesignArgs (1/10), describeActivityArgs]
               ++ detsC7.mapIdx (fun k d => analyzeDetectionArgs "component" k d.text))
        ∧ r.componentAnalyses
            = detsC7.mapIdx (fun k d => "[Location: " ++ jsToString d.text ++ "]\n" ++ "RESP".trim)
        ∧ r.componentAnalyses.length = 2 := by
  refine ⟨rfl, rfl, ?_⟩
  obtain ⟨r, h1, h2, h3⟩ := processImage_fanout_order parseC7 gatewayC7 initialConfig 6 []
    "RESP" jsonC7 [itemC7a, itemC7b] detsC7 "TEXT" (fun _ => "RESP")
    rfl rfl rfl rfl (by simp [detsC7]) rfl (fun k hk => rfl)
  exact ⟨r, h1, h2, h3.trans rfl⟩
